import Mathlib

/-!
Shallow embedding of `brubeck/queryset.py` (the query-set CRUD abstraction
with its in-memory, document-store and remote-cache backends) together with
proofs about the claims of the specification.

Notes on the source file being embedded:
* `queryset.py` contains unresolved merge-conflict markers.  One conflict
  side holds `MongoQueryset` (plus a `destroy_one` body returning an
  undefined name `shield`), the other side holds `RedisQueryset` (plus a
  `destroy_one` body returning the deleted `datum`).  Both sides are
  embedded; for `DictQueryset.destroy_one` we embed the side that is not a
  `NameError` (returning `datum`), noting the conflict where relevant.
* `api_id` is fixed to its default `'id'`, so that
  `str(getattr(shield, self.api_id))` is the shield's `id` string.
* External collaborators (`zlib`, `ujson`, the redis hash commands and the
  pymongo collection) are modelled by small executable Lean functions with
  the documented behaviour of those libraries.
-/

set_option autoImplicit false

/-- Outcome statuses: `MSG_OK = 'OK'`, `MSG_UPDATED = 'Updated'`,
`MSG_CREATED = 'Created'`, `MSG_NOTFOUND = 'Not Found'`,
`MSG_FAILED = 'Failed'` (class attributes of `AbstractQueryset`). -/
inductive Status where
  | ok
  | updated
  | created
  | notFound
  | failed
deriving DecidableEq, Repr

/-- Python exceptions that the embedded code can raise:
`FourOhFourException` (from `request_handling`), `ValueError` (raised by
`json.loads` on non-JSON input) and `AttributeError` (raised when code
reads an attribute that was never set, as `MongoQueryset` does with
`self.id_field` and `self.db_conn`). -/
inductive PyErr where
  | fourOhFour
  | valueError
  | attributeError
deriving DecidableEq, Repr

/-- The plain-data projection of a record: the result of the external
`shield.to_python()`.  The test records (`TestDoc`) carry an `id` field and
a `data` field, which is what we model. -/
structure Datum where
  id : String
  data : String
deriving DecidableEq, Repr

/-- A record object ("shield", external collaborator): an object with an
identifier field `id` and a payload field `data`. -/
structure Shield where
  id : String
  data : String
deriving DecidableEq, Repr

/-- `shield.to_python()` — the plain-data projection. -/
def Shield.to_python (s : Shield) : Datum := ⟨s.id, s.data⟩

/-- Byte strings as seen by the remote-cache backend.  `plain s` is an
arbitrary byte string that is neither a zlib stream nor the JSON
serialization produced by the model; `deflate b` is the zlib-compressed
encoding of the byte string `b`; `jsonOf d` is the JSON serialization of
the plain data `d`. -/
inductive Bytes where
  | plain (s : String)
  | deflate (b : Bytes)
  | jsonOf (d : Datum)
deriving DecidableEq, Repr

/-- Python truthiness of a byte string: only the empty byte string is
falsy.  Compressed streams and JSON texts are never empty. -/
def Bytes.truthy : Bytes → Bool
  | .plain s => s ≠ ""
  | .deflate _ => true
  | .jsonOf _ => true

/-- Model of `zlib.compress` (the compression level only affects the
encoding size, not its meaning, so it is dropped). -/
def zlib_compress (b : Bytes) : Bytes := .deflate b

/-- Model of `zlib.decompress`: succeeds exactly on zlib streams and
returns the compressed payload; any other input raises (modelled as
`none`). -/
def zlib_decompress : Bytes → Option Bytes
  | .deflate b => some b
  | _ => none

/-- Model of `ujson.loads`: succeeds exactly on JSON texts; other byte
strings raise (modelled as `none`). -/
def json_loads : Bytes → Option Datum
  | .jsonOf d => some d
  | _ => none

/-- `shield.to_json()` — the serialized-form projection of a record as
used by `RedisQueryset` (the JSON text of its plain data). -/
def Shield.to_json (s : Shield) : Bytes := .jsonOf s.to_python

/-! ## The in-memory backend: `DictQueryset`

The backing store `self.db_conn` is a Python `dict` from stringified
identifier to the record's `to_python()` projection.  We model it as an
association list without duplicate keys; Python dict iteration order is
not relied upon by any claim. -/

/-- The in-memory store: `self.db_conn` of `DictQueryset`. -/
abbrev Store := List (String × Datum)

/-- `key in d` for the Python dict. -/
def dictHas (m : Store) (k : String) : Bool :=
  (m.find? (fun kv => kv.1 = k)).isSome

/-- `d[key]`, as an `Option` (a `KeyError` is `none`). -/
def dictGet (m : Store) (k : String) : Option Datum :=
  (m.find? (fun kv => kv.1 = k)).map (fun kv => kv.2)

/-- `d[key] = v`: overwrite-or-insert. -/
def dictSet (m : Store) (k : String) (v : Datum) : Store :=
  (m.filter (fun kv => kv.1 ≠ k)) ++ [(k, v)]

/-- `del d[key]` (on a key known to be present; on an absent key the store
is returned unchanged, matching the fact that the callers below only reach
the deletion after a successful lookup). -/
def dictDel (m : Store) (k : String) : Store :=
  m.filter (fun kv => kv.1 ≠ k)

namespace DictQueryset

/-- `DictQueryset.create_one`: status is `Updated` when `shield.id` is
already a key of `db_conn`, else `Created`; then
`db_conn[str(getattr(shield, 'id'))] = shield.to_python()`; returns
`(status, shield)`. -/
def create_one (m : Store) (s : Shield) : (Status × Shield) × Store :=
  ((if dictHas m s.id then Status.updated else Status.created, s),
   dictSet m s.id s.to_python)

/-- `DictQueryset.create_many`: the list comprehension
`[self.create_one(shield) for shield in shields]`, threading the mutable
store left to right. -/
def create_many (m : Store) : List Shield → List (Status × Shield) × Store
  | [] => ([], m)
  | s :: rest =>
    ((create_one m s).1 :: (create_many (create_one m s).2 rest).1,
     (create_many (create_one m s).2 rest).2)

/-- `DictQueryset.read_all`: `[(MSG_OK, datum) for datum in db_conn.values()]`. -/
def read_all (m : Store) : List (Status × Datum) :=
  m.map (fun kv => (Status.ok, kv.2))

/-- `DictQueryset.read_one`: returns `(MSG_UPDATED, db_conn[iid])` (note:
the status in the source is `MSG_UPDATED`, not `MSG_OK`); raises
`FourOhFourException` on a `KeyError`. -/
def read_one (m : Store) (iid : String) : Except PyErr (Status × Datum) :=
  match dictGet m iid with
  | some d => .ok (Status.updated, d)
  | none => .error .fourOhFour

/-- `DictQueryset.read_many`: `[self.read_one(iid) for iid in ids]`; the
first raised exception propagates out of the comprehension. -/
def read_many (m : Store) : List String → Except PyErr (List (Status × Datum))
  | [] => .ok []
  | iid :: rest =>
    match read_one m iid with
    | .error e => .error e
    | .ok r =>
      match read_many m rest with
      | .error e => .error e
      | .ok rs => .ok (r :: rs)

/-- `DictQueryset.update_one`: unconditional overwrite, returns
`(MSG_UPDATED, shield)`. -/
def update_one (m : Store) (s : Shield) : (Status × Shield) × Store :=
  ((Status.updated, s), dictSet m s.id s.to_python)

/-- `DictQueryset.update_many`: `[self.update_one(shield) for shield in shields]`. -/
def update_many (m : Store) : List Shield → List (Status × Shield) × Store
  | [] => ([], m)
  | s :: rest =>
    ((update_one m s).1 :: (update_many (update_one m s).2 rest).1,
     (update_many (update_one m s).2 rest).2)

/-- `DictQueryset.destroy_one`: looks up `db_conn[item_id]`, deletes the
key, and returns `(MSG_UPDATED, datum)` (the deleted record; this is the
non-`NameError` side of the merge conflict — the other side returns the
undefined name `shield`).  Raises `FourOhFourException` on `KeyError`. -/
def destroy_one (m : Store) (iid : String) : Except PyErr ((Status × Datum) × Store) :=
  match dictGet m iid with
  | some d => .ok ((Status.updated, d), dictDel m iid)
  | none => .error .fourOhFour

/-- `DictQueryset.destroy_many`: `[self.destroy_one(iid) for iid in ids]`.
Deletions performed before an exception is raised persist in the mutable
store, so the final store is returned alongside the possible exception. -/
def destroy_many (m : Store) : List String → Except PyErr (List (Status × Datum)) × Store
  | [] => (.ok [], m)
  | iid :: rest =>
    match destroy_one m iid with
    | .error e => (.error e, m)
    | .ok (r, m') =>
      match (destroy_many m' rest).1 with
      | .ok rs => (.ok (r :: rs), (destroy_many m' rest).2)
      | .error e => (.error e, (destroy_many m' rest).2)

end DictQueryset

/-! ## The contract: `AbstractQueryset` singular/plural dispatch

`create`, `read`, `update` and `destroy` dispatch on the *type* of their
argument (`isinstance(x, list)`); `read` additionally checks Python
falsiness (`if not ids`) first.  The argument is either a single object or
a list of objects. -/

/-- An argument to one of the four CRUD verbs: either a single object or a
Python list of objects. -/
inductive Arg (α : Type) where
  | single (a : α)
  | list (xs : List α)
deriving DecidableEq, Repr

/-- Python falsiness of an identifier argument (`if not ids`): an empty
list and an empty string are falsy; a non-empty list and a non-empty
string are truthy. -/
def pyNot : Arg String → Bool
  | .list xs => xs.isEmpty
  | .single s => s == ""

/-- The target `read` dispatches to. -/
inductive ReadTarget where
  | all
  | one (iid : String)
  | many (ids : List String)
deriving DecidableEq, Repr

/-- The target the other three verbs dispatch to. -/
inductive CUTarget (α : Type) where
  | one (a : α)
  | many (xs : List α)
deriving DecidableEq, Repr

namespace AbstractQueryset

/-- `AbstractQueryset.read`: `if not ids: read_all(); elif
isinstance(ids, list): read_many(ids); else: read_one(ids)`. -/
def read_dispatch (ids : Arg String) : ReadTarget :=
  if pyNot ids then .all
  else
    match ids with
    | .list xs => .many xs
    | .single s => .one s

/-- `AbstractQueryset.create`: `if isinstance(shields, list):
create_many(shields); else: create_one(shields)`. -/
def create_dispatch (shields : Arg Shield) : CUTarget Shield :=
  match shields with
  | .list xs => .many xs
  | .single s => .one s

/-- `AbstractQueryset.update`: same `isinstance`-based dispatch as `create`. -/
def update_dispatch (shields : Arg Shield) : CUTarget Shield :=
  match shields with
  | .list xs => .many xs
  | .single s => .one s

/-- `AbstractQueryset.destroy`: `if isinstance(item_ids, list):
destroy_many(item_ids); else: destroy_one(item_ids)`. -/
def destroy_dispatch (item_ids : Arg String) : CUTarget String :=
  match item_ids with
  | .list xs => .many xs
  | .single s => .one s

end AbstractQueryset

/-! ## The remote-cache backend: `RedisQueryset`

The queryset stores records as fields of a single redis hash named
`self.api_id`; the hash is modelled as an association list from field to
byte string.  Pipelined batches execute their queued commands in order,
which for one `execute()` round is sequential execution against the
threaded hash state. -/

/-- The redis hash addressed by `self.api_id`. -/
abbrev RHash := List (String × Bytes)

/-- `HSET`: sets the field and returns `1` if the field is new, `0` if it
already existed (an update). -/
def hset (h : RHash) (f : String) (v : Bytes) : Nat × RHash :=
  if (h.find? (fun kv => kv.1 = f)).isSome then
    (0, (h.filter (fun kv => kv.1 ≠ f)) ++ [(f, v)])
  else
    (1, h ++ [(f, v)])

/-- `HGET`: the field's value, or `None` when absent. -/
def hget (h : RHash) (f : String) : Option Bytes :=
  (h.find? (fun kv => kv.1 = f)).map (fun kv => kv.2)

/-- `HDEL`: removes the field and returns the number of fields removed
(`1` when present, `0` when absent). -/
def hdel (h : RHash) (f : String) : Nat × RHash :=
  if (h.find? (fun kv => kv.1 = f)).isSome then
    (1, h.filter (fun kv => kv.1 ≠ f))
  else
    (0, h)

/-- `HVALS`: every value of the hash. -/
def hvals (h : RHash) : List Bytes :=
  h.map (fun kv => kv.2)

/-- A pipeline of queued `HSET` commands executed in order. -/
def hsetMany (h : RHash) : List (String × Bytes) → List Nat × RHash
  | [] => ([], h)
  | (f, v) :: rest =>
    ((hset h f v).1 :: (hsetMany (hset h f v).2 rest).1,
     (hsetMany (hset h f v).2 rest).2)

/-- A pipeline of queued `HDEL` commands executed in order. -/
def hdelMany (h : RHash) : List String → List Nat × RHash
  | [] => ([], h)
  | f :: rest =>
    ((hdel h f).1 :: (hdelMany (hdel h f).2 rest).1,
     (hdelMany (hdel h f).2 rest).2)

/-- Python truthiness of a redis `HGET` reply: `None` is falsy, a byte
string is truthy unless empty. -/
def truthyOpt : Option Bytes → Bool
  | none => false
  | some b => b.truthy

/-- A value produced by `RedisQueryset._readvalue` or used as a payload by
the redis operations: `None`, a raw byte string returned unchanged, a
deserialized plain datum, or an identifier string. -/
inductive PyVal where
  | none
  | raw (b : Bytes)
  | datum (d : Datum)
  | str (s : String)
deriving DecidableEq, Repr

namespace RedisQueryset

/-- `RedisQueryset._setvalue`: `zlib.compress(shield.to_json(), level)`
when compression is on, else `shield.to_json()`. -/
def setvalue (compress : Bool) (s : Shield) : Bytes :=
  if compress then zlib_compress s.to_json else s.to_json

/-- `RedisQueryset._readvalue`.  With compression on, the whole
decompress-then-deserialize is wrapped in a `try` that returns the
original `value` on any exception (so an absent key's `None` maps to
`None`, and a value that fails to decompress — or decompresses to
non-JSON — is returned raw).  With compression off, a falsy value maps to
`None` and a truthy value is deserialized, where `json.loads` may raise
(uncaught). -/
def readvalue (compress : Bool) (value : Option Bytes) : Except PyErr PyVal :=
  if compress then
    .ok (match value with
      | Option.none => PyVal.none
      | some b =>
        match zlib_decompress b with
        | Option.none => PyVal.raw b
        | some b' =>
          match json_loads b' with
          | Option.none => PyVal.raw b
          | some d => PyVal.datum d)
  else
    match value with
    | Option.none => .ok PyVal.none
    | some b =>
      if b.truthy then
        match json_loads b with
        | some d => .ok (PyVal.datum d)
        | Option.none => .error .valueError
      else .ok PyVal.none

/-- `map(self._readvalue, results)` — eager Python 2 `map`; the first
exception propagates. -/
def mapReadvalue (compress : Bool) : List (Option Bytes) → Except PyErr (List PyVal)
  | [] => .ok []
  | v :: rest =>
    match readvalue compress v with
    | .error e => .error e
    | .ok r =>
      match mapReadvalue compress rest with
      | .error e => .error e
      | .ok rs => .ok (r :: rs)

/-- `RedisQueryset._message_factory(fail_status, success_status)`:
`lambda x: success_status if x else fail_status`. -/
def message_factory (fail_status success_status : Status) (x : Bool) : Status :=
  if x then success_status else fail_status

/-- `RedisQueryset.create_one`: `hset` then `(MSG_CREATED, shield)` when
the reply is truthy (a new field) else `(MSG_UPDATED, shield)`. -/
def create_one (c : Bool) (h : RHash) (s : Shield) : (Status × Shield) × RHash :=
  ((if (hset h s.id (setvalue c s)).1 != 0 then Status.created else Status.updated, s),
   (hset h s.id (setvalue c s)).2)

/-- `RedisQueryset.create_many`: pipeline one `hset` per shield, then
`zip(imap(message_handler, pipe.execute()), shields)` with the
`(fail=MSG_UPDATED, success=MSG_CREATED)` handler. -/
def create_many (c : Bool) (h : RHash) (ss : List Shield) : List (Status × Shield) × RHash :=
  (((hsetMany h (ss.map (fun s => (s.id, setvalue c s)))).1.map
      (fun r => message_factory .updated .created (r != 0))).zip ss,
   (hsetMany h (ss.map (fun s => (s.id, setvalue c s)))).2)

/-- `RedisQueryset.read_all`: `[(MSG_OK, _readvalue(datum)) for datum in hvals]`. -/
def read_all (c : Bool) (h : RHash) : Except PyErr (List (Status × PyVal)) :=
  match mapReadvalue c ((hvals h).map some) with
  | .error e => .error e
  | .ok vals => .ok (vals.map (fun v => (Status.ok, v)))

/-- `RedisQueryset.read_one`: `hget`; on a truthy reply
`(MSG_OK, _readvalue(result))`, else `(MSG_FAILED, shield_id)` — note the
payload in the failure case is the identifier itself. -/
def read_one (c : Bool) (h : RHash) (sid : String) : Except PyErr (Status × PyVal) :=
  if truthyOpt (hget h sid) then
    match readvalue c (hget h sid) with
    | .error e => .error e
    | .ok v => .ok (Status.ok, v)
  else .ok (Status.failed, PyVal.str sid)

/-- `RedisQueryset.read_many`: pipeline one `hget` per id, then
`zip(imap(message_handler, results), map(_readvalue, results))` with the
`(fail=MSG_FAILED, success=MSG_OK)` handler. -/
def read_many (c : Bool) (h : RHash) (ids : List String) : Except PyErr (List (Status × PyVal)) :=
  match mapReadvalue c (ids.map (hget h)) with
  | .error e => .error e
  | .ok vals =>
    .ok (((ids.map (hget h)).map (fun r => message_factory .failed .ok (truthyOpt r))).zip vals)

/-- `RedisQueryset.update_one`: `hset`, then the
`(fail=MSG_UPDATED, success=MSG_CREATED)` handler on the reply — so a
fresh field yields `MSG_CREATED`. -/
def update_one (c : Bool) (h : RHash) (s : Shield) : (Status × Shield) × RHash :=
  ((message_factory .updated .created ((hset h s.id (setvalue c s)).1 != 0), s),
   (hset h s.id (setvalue c s)).2)

/-- `RedisQueryset.update_many`: identical pipeline and handler to
`create_many`. -/
def update_many (c : Bool) (h : RHash) (ss : List Shield) : List (Status × Shield) × RHash :=
  (((hsetMany h (ss.map (fun s => (s.id, setvalue c s)))).1.map
      (fun r => message_factory .updated .created (r != 0))).zip ss,
   (hsetMany h (ss.map (fun s => (s.id, setvalue c s)))).2)

/-- The two result shapes of `RedisQueryset.destroy_one`: a
`(status, payload)` pair on success, or the bare status string
`MSG_NOTFOUND` when the field was absent. -/
inductive DestroyOneRes where
  | pair (st : Status) (v : PyVal)
  | bare (st : Status)
deriving DecidableEq, Repr

/-- `RedisQueryset.destroy_one`: pipeline `hget` then `hdel`; when the
`hdel` reply is truthy, `(MSG_UPDATED, _readvalue(fetched))`, else the
bare string `MSG_NOTFOUND`. -/
def destroy_one (c : Bool) (h : RHash) (sid : String) : Except PyErr DestroyOneRes × RHash :=
  if (hdel h sid).1 != 0 then
    match readvalue c (hget h sid) with
    | .error e => (.error e, (hdel h sid).2)
    | .ok v => (.ok (DestroyOneRes.pair Status.updated v), (hdel h sid).2)
  else (.ok (DestroyOneRes.bare Status.notFound), (hdel h sid).2)

/-- `RedisQueryset.destroy_many`: one pipeline round of `hget` per id,
then one round of `hdel` per id, then
`zip(imap(message_handler, delete_results), map(_readvalue, values_results))`
with the `(fail=MSG_FAILED, success=MSG_UPDATED)` handler. -/
def destroy_many (c : Bool) (h : RHash) (ids : List String) :
    Except PyErr (List (Status × PyVal)) × RHash :=
  match mapReadvalue c (ids.map (hget h)) with
  | .error e => (.error e, (hdelMany h ids).2)
  | .ok vals =>
    (.ok (((hdelMany h ids).1.map
        (fun d => message_factory .failed .updated (d != 0))).zip vals),
     (hdelMany h ids).2)

end RedisQueryset

/-! ## The document-store backend: `MongoQueryset`

`MongoQueryset.__init__` sets only `self.collection` and `self.api_id`; it
never sets `self.id_field` or `self.db_conn`, so every method body that
reads those attributes raises `AttributeError` as soon as it is reached.
The collection itself is modelled as the list of inserted documents, with
`insert` returning the new document's ObjectId (modelled as its
position). -/

namespace MongoQueryset

/-- `MongoQueryset.create_one`: `return self.collection.insert(shield.to_python())`
— the return value is the backend-generated ObjectId of the inserted
document, not a `(status, shield)` pair, and the insert is unconditional
(a second insert of the same identifier stores a duplicate document). -/
def create_one (coll : List Datum) (s : Shield) : Nat × List Datum :=
  (coll.length, coll ++ [s.to_python])

/-- `MongoQueryset.create_many`: the loop body reads `self.id_field`,
which `MongoQueryset` never sets, so any non-empty input raises
`AttributeError` on its first iteration.  On an empty input the loop is
skipped and the method returns the 3-tuple `(created, updated, [])`
(after `insert` of an empty generator). -/
def create_many (coll : List Datum) (ss : List Shield) :
    Except PyErr (List Shield × List Shield × List Unit) × List Datum :=
  match ss with
  | [] => (.ok ([], [], []), coll)
  | _ :: _ => (.error .attributeError, coll)

/-- `MongoQueryset.read_many`: builds the filter
`{self.id_field: {"$in": ids}}`, and `self.id_field` is never set, so the
call raises `AttributeError` for every input. -/
def read_many (coll : List Datum) (ids : List String) : Except PyErr (List Datum) :=
  .error .attributeError

/-- `MongoQueryset.update_many`: the loop body assigns through
`self.db_conn`, which `MongoQueryset` never sets, so any non-empty input
raises `AttributeError`; on an empty input it returns the 2-tuple
`(shields, [])`. -/
def update_many (coll : List Datum) (ss : List Shield) :
    Except PyErr (List Shield × List Unit) × List Datum :=
  match ss with
  | [] => (.ok ([], []), coll)
  | _ :: _ => (.error .attributeError, coll)

/-- `MongoQueryset.update_one`: `return self.update_many([shield])` — the
plural result is returned as-is, without unwrapping. -/
def update_one (coll : List Datum) (s : Shield) :
    Except PyErr (List Shield × List Unit) × List Datum :=
  update_many coll [s]

/-- `MongoQueryset.destroy_many`: the loop body deletes through
`self.db_conn`, which is never set, so any non-empty input raises
`AttributeError` (not caught by the `except KeyError`); on an empty input
it returns the 2-tuple `(item_ids, [])`. -/
def destroy_many (coll : List Datum) (ids : List String) :
    Except PyErr (List String × List Unit) × List Datum :=
  match ids with
  | [] => (.ok ([], []), coll)
  | _ :: _ => (.error .attributeError, coll)

/-- `MongoQueryset.destroy_one`: `return self.destroy_many([item_id])` —
the plural result is returned as-is, without unwrapping. -/
def destroy_one (coll : List Datum) (iid : String) :
    Except PyErr (List String × List Unit) × List Datum :=
  destroy_many coll [iid]

end MongoQueryset

/-! ## Helper lemmas about the store and hash primitives -/

section AssocLemmas

variable {β : Type}

theorem find?_filter_out_self (m : List (String × β)) (k : String) :
    (m.filter (fun kv => kv.1 ≠ k)).find? (fun kv => kv.1 = k) = Option.none := by
  induction m with
  | nil => rfl
  | cons kv rest ih =>
    by_cases h : kv.1 = k
    · simpa [List.filter_cons, h] using ih
    · simpa [List.filter_cons, h, List.find?_cons] using ih

theorem find?_filter_out_ne (m : List (String × β)) (k k' : String) (h : k' ≠ k) :
    (m.filter (fun kv => kv.1 ≠ k)).find? (fun kv => kv.1 = k')
      = m.find? (fun kv => kv.1 = k') := by
  rw [List.find?_filter]
  congr 1
  funext a
  by_cases ha : a.1 = k'
  · have hak : ¬ a.1 = k := fun hk0 => h (by rw [← ha, hk0])
    simp [ha, hak, h]
  · simp [ha]

theorem find?_append_right {p : String × β → Bool} (m m' : List (String × β))
    (h : m.find? p = Option.none) :
    (m ++ m').find? p = m'.find? p := by
  simp [List.find?_append, h]

theorem find?_singleton_ne (k k' : String) (v : β) (h : k' ≠ k) :
    ([(k, v)].find? (fun kv => kv.1 = k')) = Option.none := by
  have hkk' : ¬ (k = k') := fun e => h e.symm
  simp [List.find?_cons, hkk']

end AssocLemmas

theorem dictGet_set_self (m : Store) (k : String) (v : Datum) :
    dictGet (dictSet m k v) k = some v := by
  unfold dictGet dictSet
  rw [find?_append_right _ _ (find?_filter_out_self m k)]
  simp [List.find?_cons]

theorem dictGet_set_ne (m : Store) (k k' : String) (v : Datum) (h : k' ≠ k) :
    dictGet (dictSet m k v) k' = dictGet m k' := by
  unfold dictGet dictSet
  rw [List.find?_append, find?_filter_out_ne m k k' h, find?_singleton_ne k k' v h]
  cases m.find? (fun kv => kv.1 = k') <;> rfl

theorem dictHas_eq_isSome (m : Store) (k : String) :
    dictHas m k = (dictGet m k).isSome := by
  unfold dictHas dictGet
  cases m.find? (fun kv => kv.1 = k) <;> rfl

theorem dictGet_del_self (m : Store) (k : String) :
    dictGet (dictDel m k) k = Option.none := by
  unfold dictGet dictDel
  rw [find?_filter_out_self]
  rfl

theorem dictGet_del_ne (m : Store) (k k' : String) (h : k' ≠ k) :
    dictGet (dictDel m k) k' = dictGet m k' := by
  unfold dictGet dictDel
  rw [find?_filter_out_ne m k k' h]

theorem hget_hset_self (h : RHash) (f : String) (v : Bytes) :
    hget (hset h f v).2 f = some v := by
  unfold hget hset
  by_cases hf : (h.find? (fun kv => kv.1 = f)).isSome
  · rw [if_pos hf]
    rw [find?_append_right _ _ (find?_filter_out_self h f)]
    simp [List.find?_cons]
  · rw [if_neg hf]
    have hnone : h.find? (fun kv => kv.1 = f) = Option.none := by
      cases hfind : h.find? (fun kv => kv.1 = f)
      · rfl
      · exact absurd (by simp [hfind]) hf
    rw [find?_append_right _ _ hnone]
    simp [List.find?_cons]

theorem hget_hset_ne (h : RHash) (f f' : String) (v : Bytes) (hne : f' ≠ f) :
    hget (hset h f v).2 f' = hget h f' := by
  unfold hget hset
  by_cases hf : (h.find? (fun kv => kv.1 = f)).isSome
  · rw [if_pos hf]
    rw [List.find?_append, find?_filter_out_ne h f f' hne, find?_singleton_ne f f' v hne]
    cases h.find? (fun kv => kv.1 = f') <;> rfl
  · rw [if_neg hf]
    rw [List.find?_append, find?_singleton_ne f f' v hne]
    cases h.find? (fun kv => kv.1 = f') <;> rfl

theorem hset_fst (h : RHash) (f : String) (v : Bytes) :
    (hset h f v).1 = if (hget h f).isSome then 0 else 1 := by
  unfold hset hget
  cases hfind : h.find? (fun kv => kv.1 = f) <;> simp [hfind]

theorem hdel_absent (h : RHash) (f : String) (hf : hget h f = Option.none) :
    hdel h f = (0, h) := by
  unfold hdel
  unfold hget at hf
  cases hfind : h.find? (fun kv => kv.1 = f)
  · simp [hfind]
  · simp [hfind] at hf

theorem hdel_present (h : RHash) (f : String) (hf : (hget h f).isSome) :
    hdel h f = (1, h.filter (fun kv => kv.1 ≠ f)) := by
  unfold hdel
  unfold hget at hf
  cases hfind : h.find? (fun kv => kv.1 = f)
  · rw [hfind] at hf
    exact absurd hf (by simp)
  · simp [hfind]

theorem hget_hdel_self (h : RHash) (f : String) :
    hget (hdel h f).2 f = Option.none := by
  unfold hget hdel
  cases hfind : h.find? (fun kv => kv.1 = f)
  · simpa [hfind] using hfind
  · simp only [hfind, Option.isSome_some, if_true]
    rw [find?_filter_out_self]
    rfl

theorem hget_hdel_ne (h : RHash) (f f' : String) (hne : f' ≠ f) :
    hget (hdel h f).2 f' = hget h f' := by
  unfold hget hdel
  cases hfind : h.find? (fun kv => kv.1 = f)
  · simp [hfind]
  · simp only [hfind, Option.isSome_some, if_true]
    rw [find?_filter_out_ne h f f' hne]

theorem readvalue_none (c : Bool) :
    RedisQueryset.readvalue c Option.none = Except.ok PyVal.none := by
  cases c <;> rfl

theorem setvalue_truthy (c : Bool) (s : Shield) :
    (RedisQueryset.setvalue c s).truthy = true := by
  cases c <;> rfl

theorem readvalue_setvalue (c : Bool) (s : Shield) :
    RedisQueryset.readvalue c (some (RedisQueryset.setvalue c s))
      = Except.ok (PyVal.datum s.to_python) := by
  cases c <;> rfl

theorem hsetMany_fst_length (l : List (String × Bytes)) (h : RHash) :
    ((hsetMany h l).1).length = l.length := by
  induction l generalizing h with
  | nil => rfl
  | cons kv rest ih =>
    cases kv with
    | mk f v => simp [hsetMany, ih]

theorem hdelMany_fst_length (ids : List String) (h : RHash) :
    ((hdelMany h ids).1).length = ids.length := by
  induction ids generalizing h with
  | nil => rfl
  | cons f rest ih => simp [hdelMany, ih]

theorem mapReadvalue_ok_length (c : Bool) (vs : List (Option Bytes))
    (rs : List PyVal) (h : RedisQueryset.mapReadvalue c vs = Except.ok rs) :
    rs.length = vs.length := by
  induction vs generalizing rs with
  | nil =>
    simp only [RedisQueryset.mapReadvalue] at h
    cases h
    rfl
  | cons v rest ih =>
    simp only [RedisQueryset.mapReadvalue] at h
    cases hv : RedisQueryset.readvalue c v with
    | error e => rw [hv] at h; cases h
    | ok r =>
      rw [hv] at h
      cases hrest : RedisQueryset.mapReadvalue c rest with
      | error e => rw [hrest] at h; cases h
      | ok rs' =>
        rw [hrest] at h
        cases h
        simp [ih rs' hrest]

theorem dict_create_many_fst_length (ss : List Shield) (m : Store) :
    ((DictQueryset.create_many m ss).1).length = ss.length := by
  induction ss generalizing m with
  | nil => rfl
  | cons s rest ih => simp [DictQueryset.create_many, ih]

theorem dict_update_many_fst_length (ss : List Shield) (m : Store) :
    ((DictQueryset.update_many m ss).1).length = ss.length := by
  induction ss generalizing m with
  | nil => rfl
  | cons s rest ih => simp [DictQueryset.update_many, ih]

theorem dict_read_many_ok_length (ids : List String) (m : Store)
    (rs : List (Status × Datum)) (h : DictQueryset.read_many m ids = Except.ok rs) :
    rs.length = ids.length := by
  induction ids generalizing rs with
  | nil =>
    simp only [DictQueryset.read_many] at h
    cases h
    rfl
  | cons iid rest ih =>
    simp only [DictQueryset.read_many] at h
    cases hv : DictQueryset.read_one m iid with
    | error e => rw [hv] at h; cases h
    | ok r =>
      rw [hv] at h
      cases hrest : DictQueryset.read_many m rest with
      | error e => rw [hrest] at h; cases h
      | ok rs' =>
        rw [hrest] at h
        cases h
        simp [ih rs' hrest]

theorem dict_destroy_many_ok_length (ids : List String) (m : Store)
    (rs : List (Status × Datum)) (m' : Store)
    (h : DictQueryset.destroy_many m ids = (Except.ok rs, m')) :
    rs.length = ids.length := by
  induction ids generalizing m rs m' with
  | nil =>
    simp only [DictQueryset.destroy_many] at h
    cases h
    rfl
  | cons iid rest ih =>
    simp only [DictQueryset.destroy_many] at h
    cases hv : DictQueryset.destroy_one m iid with
    | error e => rw [hv] at h; cases h
    | ok rm =>
      rw [hv] at h
      cases hrest : (DictQueryset.destroy_many rm.2 rest).1 with
      | error e => simp only [hrest] at h; cases h
      | ok rs' =>
        simp only [hrest] at h
        cases h
        have := ih rm.2 rs' (DictQueryset.destroy_many rm.2 rest).2
          (by rw [← hrest])
        simp [this]

theorem redis_read_many_ok_length (c : Bool) (h : RHash) (ids : List String)
    (rs : List (Status × PyVal)) (hok : RedisQueryset.read_many c h ids = Except.ok rs) :
    rs.length = ids.length := by
  unfold RedisQueryset.read_many at hok
  cases hmv : RedisQueryset.mapReadvalue c (ids.map (hget h)) with
  | error e => rw [hmv] at hok; cases hok
  | ok vals =>
    rw [hmv] at hok
    cases hok
    have hv := mapReadvalue_ok_length c _ vals hmv
    simp only [List.length_map] at hv
    simp [List.length_zip, hv]

theorem redis_destroy_many_ok_length (c : Bool) (h : RHash) (ids : List String)
    (rs : List (Status × PyVal))
    (hok : (RedisQueryset.destroy_many c h ids).1 = Except.ok rs) :
    rs.length = ids.length := by
  unfold RedisQueryset.destroy_many at hok
  cases hmv : RedisQueryset.mapReadvalue c (ids.map (hget h)) with
  | error e => rw [hmv] at hok; cases hok
  | ok vals =>
    rw [hmv] at hok
    cases hok
    have hv := mapReadvalue_ok_length c _ vals hmv
    simp only [List.length_map] at hv
    simp [List.length_zip, hv, hdelMany_fst_length]

/-! ## Claim theorems -/

/-- Claim C1: for every backend queryset and every plural operation
(`create_many`, `read_many`, `update_many`, `destroy_many`) that returns
without raising, the result is an ordered sequence of (status, payload)
pairs whose length equals the input's length, positionally aligned.  The
document-store backend violates this: `MongoQueryset.update_many([])` and
`MongoQueryset.destroy_many([])` return without raising, but their result
is the 2-tuple `(shields, [])` resp. `(item_ids, [])` — a pair of lists,
not a list of per-item (status, payload) pairs of length 0.  The in-memory
and remote-cache backends do return lists of pairs of the input's length. -/
theorem C1_batch_result_shape :
    (MongoQueryset.update_many [] [] = (Except.ok ([], []), [])
      ∧ MongoQueryset.destroy_many [] [] = (Except.ok ([], []), []))
    ∧ (∀ m ss, ((DictQueryset.create_many m ss).1).length = ss.length)
    ∧ (∀ m ss, ((DictQueryset.update_many m ss).1).length = ss.length)
    ∧ (∀ m ids rs, DictQueryset.read_many m ids = Except.ok rs →
        rs.length = ids.length)
    ∧ (∀ m m' ids rs, DictQueryset.destroy_many m ids = (Except.ok rs, m') →
        rs.length = ids.length)
    ∧ (∀ c h ss, ((RedisQueryset.create_many c h ss).1).length = ss.length)
    ∧ (∀ c h ss, ((RedisQueryset.update_many c h ss).1).length = ss.length)
    ∧ (∀ c h ids rs, RedisQueryset.read_many c h ids = Except.ok rs →
        rs.length = ids.length)
    ∧ (∀ c h ids rs, (RedisQueryset.destroy_many c h ids).1 = Except.ok rs →
        rs.length = ids.length) := by
  refine ⟨⟨rfl, rfl⟩, ?_, ?_, ?_, ?_, ?_, ?_, ?_, ?_⟩
  · intro m ss
    exact dict_create_many_fst_length ss m
  · intro m ss
    exact dict_update_many_fst_length ss m
  · intro m ids rs hok
    exact dict_read_many_ok_length ids m rs hok
  · intro m m' ids rs hok
    exact dict_destroy_many_ok_length ids m rs m' hok
  · intro c h ss
    simp [RedisQueryset.create_many, List.length_zip, hsetMany_fst_length]
  · intro c h ss
    simp [RedisQueryset.update_many, List.length_zip, hsetMany_fst_length]
  · intro c h ids rs hok
    exact redis_read_many_ok_length c h ids rs hok
  · intro c h ids rs hok
    exact redis_destroy_many_ok_length c h ids rs hok

/-- Witness for C1: the length invariant at a concrete in-memory read. -/
theorem C1_batch_result_shape_witness :
    ([((Status.updated : Status), (Datum.mk "a" "x" : Datum))]).length
      = (["a"]).length :=
  C1_batch_result_shape.2.2.2.1 [("a", Datum.mk "a" "x")] ["a"]
    [(Status.updated, Datum.mk "a" "x")] rfl

/-- Claim C2: for every backend, `read_many` over fully stored ids returns
`(OK, payload)` pairs and an absent id yields at least one non-OK pair.
The in-memory backend contradicts this (and the repository's own tests
`test__read_one` / `test__read_many`, which assert `MSG_OK` for present
ids and a `MSG_FAILED` pair for absent ids): it returns status `Updated`
for present ids and raises `FourOhFourException` as soon as any id is
absent, yielding no pairs at all. -/
theorem C2_dict_read_eval :
    DictQueryset.read_many [("foo", Datum.mk "foo" "x")] ["foo"]
      = Except.ok [(Status.updated, Datum.mk "foo" "x")]
    ∧ Status.updated ≠ Status.ok
    ∧ DictQueryset.read_many [("foo", Datum.mk "foo" "x")] ["foo", "nope"]
      = Except.error PyErr.fourOhFour
    ∧ DictQueryset.read_one [("foo", Datum.mk "foo" "x")] "foo"
      = Except.ok (Status.updated, Datum.mk "foo" "x") := by
  refine ⟨rfl, by decide, rfl, rfl⟩

/-- Claim C6 counterexample: a one-element list dispatches to the *plural*
variant (`read_many`), not the singular one — dispatch tests
`isinstance(ids, list)`, so it is type-based, not arity-based. -/
theorem C6_counterexample :
    AbstractQueryset.read_dispatch (Arg.list ["foo"]) = ReadTarget.many ["foo"]
    ∧ ReadTarget.many ["foo"] ≠ ReadTarget.one "foo" := by
  refine ⟨rfl, by decide⟩

/-- Claim C6 (amended): dispatch is type-based — a list argument goes to
the plural variant regardless of its length and a non-list argument to the
singular variant, uniformly for the four verbs; additionally `read` first
checks Python falsiness, so an empty list (or empty string) dispatches to
`read_all`.  The other three verbs have no falsiness check. -/
theorem C6_dispatch_characterization :
    (AbstractQueryset.read_dispatch (Arg.list []) = ReadTarget.all)
    ∧ (∀ i is, AbstractQueryset.read_dispatch (Arg.list (i :: is))
        = ReadTarget.many (i :: is))
    ∧ (∀ s, s ≠ "" → AbstractQueryset.read_dispatch (Arg.single s) = ReadTarget.one s)
    ∧ (AbstractQueryset.read_dispatch (Arg.single "") = ReadTarget.all)
    ∧ (∀ xs, AbstractQueryset.create_dispatch (Arg.list xs) = CUTarget.many xs)
    ∧ (∀ s, AbstractQueryset.create_dispatch (Arg.single s) = CUTarget.one s)
    ∧ (∀ xs, AbstractQueryset.update_dispatch (Arg.list xs) = CUTarget.many xs)
    ∧ (∀ s, AbstractQueryset.update_dispatch (Arg.single s) = CUTarget.one s)
    ∧ (∀ xs, AbstractQueryset.destroy_dispatch (Arg.list xs) = CUTarget.many xs)
    ∧ (∀ s, AbstractQueryset.destroy_dispatch (Arg.single s) = CUTarget.one s) := by
  refine ⟨rfl, ?_, ?_, rfl, fun xs => rfl, fun s => rfl, fun xs => rfl,
    fun s => rfl, fun xs => rfl, fun s => rfl⟩
  · intro i is
    rfl
  · intro s hs
    have hb : (s == "") = false := by
      cases hsb : s == ""
      · rfl
      · exact absurd (by simpa using hsb) hs
    simp [AbstractQueryset.read_dispatch, pyNot, hb]

/-- Witness for C6: the singular-dispatch case at a concrete identifier. -/
theorem C6_dispatch_characterization_witness :
    AbstractQueryset.read_dispatch (Arg.single "a") = ReadTarget.one "a" :=
  C6_dispatch_characterization.2.2.1 "a" (by decide)

/-- Claim C9 counterexample: with compression enabled, a stored value whose
decompression fails is returned *raw* by `_readvalue`, which is not the
"no value" result that an absent key produces. -/
theorem C9_counterexample :
    RedisQueryset.readvalue true (some (Bytes.plain "garbage"))
      = Except.ok (PyVal.raw (Bytes.plain "garbage"))
    ∧ RedisQueryset.readvalue true Option.none = Except.ok PyVal.none
    ∧ PyVal.raw (Bytes.plain "garbage") ≠ PyVal.none := by
  refine ⟨rfl, rfl, by decide⟩

/-- Claim C9 (amended): with compression enabled the read-value transform
never raises; an absent key's `None` yields the no-value result; but a
present value whose decompression fails is returned as the raw stored
value — distinct from the no-value result — rather than being treated as
"no value". -/
theorem C9_readvalue_compress :
    (∀ v, ∃ r, RedisQueryset.readvalue true v = Except.ok r)
    ∧ (RedisQueryset.readvalue true Option.none = Except.ok PyVal.none)
    ∧ (∀ b, zlib_decompress b = Option.none →
        RedisQueryset.readvalue true (some b) = Except.ok (PyVal.raw b))
    ∧ (∀ b, PyVal.raw b ≠ PyVal.none) := by
  refine ⟨?_, rfl, ?_, ?_⟩
  · intro v
    exact ⟨_, rfl⟩
  · intro b hb
    simp [RedisQueryset.readvalue, hb]
  · intro b hb
    cases hb

/-- Witness for C9: a concrete undecompressible byte string. -/
theorem C9_readvalue_compress_witness :
    RedisQueryset.readvalue true (some (Bytes.plain "zz"))
      = Except.ok (PyVal.raw (Bytes.plain "zz")) :=
  C9_readvalue_compress.2.2.1 (Bytes.plain "zz") rfl

/-- Claim C10: `RedisQueryset.destroy_one` on an absent identifier returns
the bare status string `MSG_NOTFOUND` (not a pair), while on a present
identifier it returns a `(status, payload)` pair — the result shapes
differ between the two cases. -/
theorem C10_redis_destroy_one_shape :
    (∀ c h sid, hget h sid = Option.none →
      RedisQueryset.destroy_one c h sid
        = (Except.ok (RedisQueryset.DestroyOneRes.bare Status.notFound), h))
    ∧ (∀ c h sid b v, hget h sid = some b →
        RedisQueryset.readvalue c (some b) = Except.ok v →
        RedisQueryset.destroy_one c h sid
          = (Except.ok (RedisQueryset.DestroyOneRes.pair Status.updated v),
             (hdel h sid).2)) := by
  constructor
  · intro c h sid habs
    have hd := hdel_absent h sid habs
    simp [RedisQueryset.destroy_one, hd]
  · intro c h sid b v hpres hrv
    have hd := hdel_present h sid (by simp [hpres])
    simp [RedisQueryset.destroy_one, hd, hpres, hrv]

/-- Witness for C10: both shapes at concrete inputs. -/
theorem C10_redis_destroy_one_shape_witness :
    RedisQueryset.destroy_one false [] "x"
      = (Except.ok (RedisQueryset.DestroyOneRes.bare Status.notFound), []) :=
  C10_redis_destroy_one_shape.1 false [] "x" rfl

theorem dictGet_del_of_none (m : Store) (k i : String)
    (h : dictGet m i = Option.none) :
    dictGet (dictDel m k) i = Option.none := by
  by_cases hik : i = k
  · subst hik
    exact dictGet_del_self m i
  · rw [dictGet_del_ne m k i hik]
    exact h

/-- Claim C3: for every backend, `create_one` on a fresh identifier yields
`CREATED`, a second `create_one` on the same identifier yields `UPDATED`,
and a subsequent read returns the projection of the latest write.  The
in-memory and remote-cache backends satisfy this, but the document-store
backend violates it (and the shared tests `test__create_one`):
`MongoQueryset.create_one` returns the collection's insert result (the new
document's backend id), never a status, and a second call inserts a
duplicate document instead of reporting `UPDATED`. -/
theorem C3_create_one_upsert :
    (MongoQueryset.create_one [] (Shield.mk "foo" "x")
        = (0, [Datum.mk "foo" "x"])
      ∧ MongoQueryset.create_one [Datum.mk "foo" "x"] (Shield.mk "foo" "x")
        = (1, [Datum.mk "foo" "x", Datum.mk "foo" "x"]))
    ∧ (∀ m s, dictHas m s.id = false →
        ((DictQueryset.create_one m s).1).1 = Status.created)
    ∧ (∀ m s s', s'.id = s.id →
        ((DictQueryset.create_one (DictQueryset.create_one m s).2 s').1).1
            = Status.updated
        ∧ DictQueryset.read_one
            (DictQueryset.create_one (DictQueryset.create_one m s).2 s').2 s'.id
            = Except.ok (Status.updated, s'.to_python))
    ∧ (∀ c h s, hget h s.id = Option.none →
        ((RedisQueryset.create_one c h s).1).1 = Status.created)
    ∧ (∀ c h s s', s'.id = s.id →
        ((RedisQueryset.create_one c (RedisQueryset.create_one c h s).2 s').1).1
            = Status.updated
        ∧ RedisQueryset.read_one c
            (RedisQueryset.create_one c (RedisQueryset.create_one c h s).2 s').2 s'.id
            = Except.ok (Status.ok, PyVal.datum s'.to_python)) := by
  refine ⟨⟨rfl, rfl⟩, ?_, ?_, ?_, ?_⟩
  · intro m s hfresh
    simp [DictQueryset.create_one, hfresh]
  · intro m s s' hid
    have h1 : dictHas (dictSet m s.id s.to_python) s'.id = true := by
      rw [dictHas_eq_isSome, hid, dictGet_set_self]
      rfl
    constructor
    · simp [DictQueryset.create_one, h1]
    · simp [DictQueryset.read_one, DictQueryset.create_one, dictGet_set_self]
  · intro c h s habs
    simp [RedisQueryset.create_one, hset_fst, habs]
  · intro c h s s' hid
    have h1 : hget (hset h s.id (RedisQueryset.setvalue c s)).2 s'.id
        = some (RedisQueryset.setvalue c s) := by
      rw [hid, hget_hset_self]
    constructor
    · simp [RedisQueryset.create_one, hset_fst, h1]
    · simp [RedisQueryset.read_one, RedisQueryset.create_one, hget_hset_self,
        setvalue_truthy, readvalue_setvalue, truthyOpt]

/-- Witness for C3: a fresh create on the in-memory backend is CREATED. -/
theorem C3_create_one_upsert_witness :
    ((DictQueryset.create_one [] (Shield.mk "a" "x")).1).1 = Status.created :=
  C3_create_one_upsert.2.1 [] (Shield.mk "a" "x") rfl

/-- Claim C4 counterexample: with only `"foo"` stored,
`destroy_many(["foo", "nope"])` raises the not-found signal *after*
removing `"foo"` — the final store is empty, not the original one, so the
failure is not all-or-nothing. -/
theorem C4_counterexample :
    DictQueryset.destroy_many [("foo", Datum.mk "foo" "x")] ["foo", "nope"]
      = (Except.error PyErr.fourOhFour, [])
    ∧ ([] : Store) ≠ [("foo", Datum.mk "foo" "x")] := by
  refine ⟨rfl, by decide⟩

/-- Claim C4 (amended): the in-memory backend's `read_many` and
`destroy_many` raise the not-found signal whenever some requested id is
absent (and `read_many` succeeds when all are present; being read-only it
never mutates the store); but for `destroy_many` the failure is not
all-or-nothing — identifiers destroyed before the raise stay removed. -/
theorem C4_dict_batch_not_found :
    (∀ m ids, (∃ i ∈ ids, dictGet m i = Option.none) →
      DictQueryset.read_many m ids = Except.error PyErr.fourOhFour)
    ∧ (∀ m ids, (∀ i ∈ ids, (dictGet m i).isSome) →
      ∃ rs, DictQueryset.read_many m ids = Except.ok rs)
    ∧ (∀ m ids, (∃ i ∈ ids, dictGet m i = Option.none) →
      (DictQueryset.destroy_many m ids).1 = Except.error PyErr.fourOhFour) := by
  refine ⟨?_, ?_, ?_⟩
  · intro m ids
    induction ids with
    | nil =>
      rintro ⟨i, hi, _⟩
      cases hi
    | cons iid rest ih =>
      rintro ⟨i, hi, habs⟩
      simp only [DictQueryset.read_many]
      rcases List.mem_cons.mp hi with heq | hmem
      · subst heq
        simp [DictQueryset.read_one, habs]
      · cases hg : dictGet m iid with
        | none => simp [DictQueryset.read_one, hg]
        | some d =>
          have hrec := ih ⟨i, hmem, habs⟩
          simp [DictQueryset.read_one, hg, hrec]
  · intro m ids
    induction ids with
    | nil =>
      intro _
      exact ⟨[], rfl⟩
    | cons iid rest ih =>
      intro hall
      obtain ⟨d, hd⟩ := Option.isSome_iff_exists.mp (hall iid (by simp))
      obtain ⟨rs, hrs⟩ := ih (fun i hi => hall i (by simp [hi]))
      refine ⟨(Status.updated, d) :: rs, ?_⟩
      simp [DictQueryset.read_many, DictQueryset.read_one, hd, hrs]
  · intro m ids
    induction ids generalizing m with
    | nil =>
      rintro ⟨i, hi, _⟩
      cases hi
    | cons iid rest ih =>
      rintro ⟨i, hi, habs⟩
      simp only [DictQueryset.destroy_many]
      cases hg : dictGet m iid with
      | none => simp [DictQueryset.destroy_one, hg]
      | some d =>
        rcases List.mem_cons.mp hi with heq | hmem
        · subst heq
          rw [habs] at hg
          cases hg
        · have habs' : dictGet (dictDel m iid) i = Option.none :=
            dictGet_del_of_none m iid i habs
          have hrec := ih (dictDel m iid) ⟨i, hmem, habs'⟩
          simp [DictQueryset.destroy_one, hg, hrec]

/-- Witness for C4: the raise at a concrete partially-present batch. -/
theorem C4_dict_batch_not_found_witness :
    (DictQueryset.destroy_many [("foo", Datum.mk "foo" "x")] ["foo", "nope"]).1
      = Except.error PyErr.fourOhFour :=
  C4_dict_batch_not_found.2.2 [("foo", Datum.mk "foo" "x")] ["foo", "nope"]
    ⟨"nope", by decide, rfl⟩

/-- Claim C5 counterexample: the remote-cache backend's `update_many` on a
*fresh* identifier returns status `CREATED`, not `UPDATED` — its message
handler maps a truthy `hset` reply (new field) to `MSG_CREATED`. -/
theorem C5_counterexample :
    RedisQueryset.update_many false [] [Shield.mk "a" "x"]
      = ([(Status.created, Shield.mk "a" "x")],
         [("a", Bytes.jsonOf (Datum.mk "a" "x"))])
    ∧ Status.created ≠ Status.updated := by
  refine ⟨rfl, by decide⟩

/-- Claim C5 (amended): `update_many` overwrites the stored record at each
item's identifier unconditionally, but the statuses differ by backend: the
in-memory backend returns `(UPDATED, shield)` for every item; the
remote-cache backend returns `UPDATED` when the identifier already existed
and `CREATED` when it did not; the document-store backend returns no
status pairs at all (its `update_many` raises `AttributeError` on any
non-empty input). -/
theorem C5_update_many_characterization :
    (∀ m ss, (DictQueryset.update_many m ss).1
        = ss.map (fun s => (Status.updated, s)))
    ∧ (∀ m s, dictGet ((DictQueryset.update_one m s).2) s.id = some s.to_python)
    ∧ (∀ c h s, (hget h s.id).isSome →
        (RedisQueryset.update_one c h s).1 = (Status.updated, s))
    ∧ (∀ c h s, hget h s.id = Option.none →
        (RedisQueryset.update_one c h s).1 = (Status.created, s))
    ∧ (∀ c h s, hget ((RedisQueryset.update_one c h s).2) s.id
        = some (RedisQueryset.setvalue c s))
    ∧ (∀ c h ss, ((RedisQueryset.update_many c h ss).1).map Prod.snd = ss)
    ∧ (∀ c h ss p, p ∈ (RedisQueryset.update_many c h ss).1 →
        p.1 = Status.updated ∨ p.1 = Status.created)
    ∧ (∀ coll s ss, MongoQueryset.update_many coll (s :: ss)
        = (Except.error PyErr.attributeError, coll)) := by
  refine ⟨?_, ?_, ?_, ?_, ?_, ?_, ?_, ?_⟩
  · intro m ss
    induction ss generalizing m with
    | nil => rfl
    | cons s rest ih => simp [DictQueryset.update_many, DictQueryset.update_one, ih]
  · intro m s
    simp [DictQueryset.update_one, dictGet_set_self]
  · intro c h s hpres
    simp [RedisQueryset.update_one, RedisQueryset.message_factory, hset_fst, hpres]
  · intro c h s habs
    simp [RedisQueryset.update_one, RedisQueryset.message_factory, hset_fst, habs]
  · intro c h s
    simp [RedisQueryset.update_one, hget_hset_self]
  · intro c h ss
    apply List.map_snd_zip
    simp [hsetMany_fst_length]
  · intro c h ss p hp
    have hfst := (List.of_mem_zip hp).1
    obtain ⟨r, _, hr⟩ := List.mem_map.mp hfst
    cases hrb : (r != 0)
    · left
      rw [← hr]
      simp [RedisQueryset.message_factory, hrb]
    · right
      rw [← hr]
      simp [RedisQueryset.message_factory, hrb]
  · intro coll s ss
    rfl

/-- Witness for C5: a redis update of an existing identifier is UPDATED. -/
theorem C5_update_many_characterization_witness :
    (RedisQueryset.update_one false [("a", Bytes.jsonOf (Datum.mk "a" "x"))]
        (Shield.mk "a" "y")).1
      = (Status.updated, Shield.mk "a" "y") :=
  C5_update_many_characterization.2.2.1 false
    [("a", Bytes.jsonOf (Datum.mk "a" "x"))] (Shield.mk "a" "y") (by decide)

theorem dictGet_foldl_del_of_none (ids : List String) (m : Store) (i : String)
    (h : dictGet m i = Option.none) :
    dictGet (ids.foldl dictDel m) i = Option.none := by
  induction ids generalizing m with
  | nil => exact h
  | cons k rest ih =>
    rw [List.foldl_cons]
    exact ih (dictDel m k) (dictGet_del_of_none m k i h)

theorem dictGet_foldl_del_of_mem (ids : List String) (m : Store) (i : String)
    (hi : i ∈ ids) :
    dictGet (ids.foldl dictDel m) i = Option.none := by
  induction ids generalizing m with
  | nil => cases hi
  | cons k rest ih =>
    rw [List.foldl_cons]
    rcases List.mem_cons.mp hi with heq | hmem
    · subst heq
      exact dictGet_foldl_del_of_none rest (dictDel m i) i (dictGet_del_self m i)
    · exact ih (dictDel m k) hmem

theorem dict_destroy_many_all_present (ids : List String) (m : Store)
    (dv : String → Datum) (hnd : ids.Nodup)
    (hall : ∀ i ∈ ids, dictGet m i = some (dv i)) :
    DictQueryset.destroy_many m ids
      = (Except.ok (ids.map (fun i => (Status.updated, dv i))),
         ids.foldl dictDel m) := by
  induction ids generalizing m with
  | nil => rfl
  | cons iid rest ih =>
    have h1 : DictQueryset.destroy_one m iid
        = Except.ok ((Status.updated, dv iid), dictDel m iid) := by
      simp [DictQueryset.destroy_one, hall iid (by simp)]
    have hnd' := (List.nodup_cons.mp hnd)
    have hall' : ∀ i ∈ rest, dictGet (dictDel m iid) i = some (dv i) := by
      intro i hi
      have hne : i ≠ iid := fun heq => hnd'.1 (heq ▸ hi)
      rw [dictGet_del_ne m iid i hne]
      exact hall i (by simp [hi])
    have hrec := ih (dictDel m iid) hnd'.2 hall'
    simp [DictQueryset.destroy_many, h1, hrec]

theorem hget_hdel_of_none (h : RHash) (k i : String)
    (hi : hget h i = Option.none) :
    hget (hdel h k).2 i = Option.none := by
  by_cases hik : i = k
  · subst hik
    exact hget_hdel_self h i
  · rw [hget_hdel_ne h k i hik]
    exact hi

theorem hget_hdelMany_of_none (ids : List String) (h : RHash) (i : String)
    (hi : hget h i = Option.none) :
    hget (hdelMany h ids).2 i = Option.none := by
  induction ids generalizing h with
  | nil => exact hi
  | cons k rest ih =>
    simp only [hdelMany]
    exact ih (hdel h k).2 (hget_hdel_of_none h k i hi)

theorem hget_hdelMany_of_mem (ids : List String) (h : RHash) (i : String)
    (hi : i ∈ ids) :
    hget (hdelMany h ids).2 i = Option.none := by
  induction ids generalizing h with
  | nil => cases hi
  | cons k rest ih =>
    simp only [hdelMany]
    rcases List.mem_cons.mp hi with heq | hmem
    · subst heq
      exact hget_hdelMany_of_none rest (hdel h i).2 i (hget_hdel_self h i)
    · exact ih (hdel h k).2 hmem

theorem hdelMany_all_present (ids : List String) (h : RHash) (hnd : ids.Nodup)
    (hall : ∀ i ∈ ids, (hget h i).isSome) :
    (hdelMany h ids).1 = ids.map (fun _ => 1) := by
  induction ids generalizing h with
  | nil => rfl
  | cons iid rest ih =>
    have hnd' := List.nodup_cons.mp hnd
    have h1 : hdel h iid = (1, h.filter (fun kv => kv.1 ≠ iid)) :=
      hdel_present h iid (hall iid (by simp))
    have hall' : ∀ i ∈ rest, (hget (hdel h iid).2 i).isSome := by
      intro i hi
      have hne : i ≠ iid := fun heq => hnd'.1 (heq ▸ hi)
      rw [hget_hdel_ne h iid i hne]
      exact hall i (by simp [hi])
    have hrec := ih (hdel h iid).2 hnd'.2 hall'
    simp only [hdelMany, List.map_cons]
    rw [hrec, h1]

theorem mapReadvalue_all_ok (c : Bool) (ids : List String)
    (bv : String → Bytes) (vv : String → PyVal)
    (hrv : ∀ i ∈ ids, RedisQueryset.readvalue c (some (bv i)) = Except.ok (vv i)) :
    RedisQueryset.mapReadvalue c (ids.map (fun i => some (bv i)))
      = Except.ok (ids.map vv) := by
  induction ids with
  | nil => rfl
  | cons iid rest ih =>
    have hrec := ih (fun i hi => hrv i (by simp [hi]))
    simp [RedisQueryset.mapReadvalue, hrv iid (by simp), hrec]

theorem redis_destroy_many_all_present (c : Bool) (ids : List String) (h : RHash)
    (bv : String → Bytes) (vv : String → PyVal) (hnd : ids.Nodup)
    (hall : ∀ i ∈ ids, hget h i = some (bv i))
    (hrv : ∀ i ∈ ids, RedisQueryset.readvalue c (some (bv i)) = Except.ok (vv i)) :
    (RedisQueryset.destroy_many c h ids).1
      = Except.ok (ids.map (fun i => (Status.updated, vv i))) := by
  have hmap : ids.map (hget h) = ids.map (fun i => some (bv i)) := by
    apply List.map_congr_left
    exact hall
  have hdels : (hdelMany h ids).1 = ids.map (fun _ => 1) :=
    hdelMany_all_present ids h hnd (fun i hi => by simp [hall i hi])
  simp only [RedisQueryset.destroy_many, hmap,
    mapReadvalue_all_ok c ids bv vv hrv, hdels]
  rw [List.map_map, List.zip_map']
  rfl

theorem redis_destroy_many_snd (c : Bool) (h : RHash) (ids : List String) :
    (RedisQueryset.destroy_many c h ids).2 = (hdelMany h ids).2 := by
  unfold RedisQueryset.destroy_many
  cases RedisQueryset.mapReadvalue c (ids.map (hget h)) <;> rfl

/-- Claim C7 counterexample: `destroy_many(["foo"])` succeeds with status
`UPDATED`, but its payload is the previously stored record itself (the
plain-data projection that was stored at `"foo"`), not a minimal echo of
the identifier. -/
theorem C7_counterexample :
    DictQueryset.destroy_many [("foo", Datum.mk "foo" "x")] ["foo"]
      = (Except.ok [(Status.updated, Datum.mk "foo" "x")], [])
    ∧ dictGet [("foo", Datum.mk "foo" "x")] "foo" = some (Datum.mk "foo" "x") := by
  refine ⟨rfl, rfl⟩

/-- Claim C7 (amended): `destroy_many(ids)` on stored identifiers removes
each identified item and returns, per id, the pair `(UPDATED, payload)`
where the payload is the *deleted record* (the in-memory backend returns
the stored plain-data projection; the remote-cache backend returns the
deserialization of the stored value) — not an identifier echo.  For an
absent id the remote-cache backend yields a `(FAILED, None)` pair, while
the in-memory backend raises its not-found signal. -/
theorem C7_destroy_many_characterization :
    (∀ m iid d, dictGet m iid = some d →
      DictQueryset.destroy_one m iid
        = Except.ok ((Status.updated, d), dictDel m iid))
    ∧ (∀ m iid, dictGet m iid = Option.none →
      DictQueryset.destroy_one m iid = Except.error PyErr.fourOhFour)
    ∧ (∀ (ids : List String) (m : Store) (dv : String → Datum),
      List.Nodup ids → (∀ i ∈ ids, dictGet m i = some (dv i)) →
      DictQueryset.destroy_many m ids
        = (Except.ok (ids.map (fun i => (Status.updated, dv i))),
           ids.foldl dictDel m)
      ∧ ∀ i ∈ ids, dictGet (ids.foldl dictDel m) i = Option.none)
    ∧ (∀ (c : Bool) (ids : List String) (h : RHash) (bv : String → Bytes)
      (vv : String → PyVal), List.Nodup ids →
      (∀ i ∈ ids, hget h i = some (bv i)) →
      (∀ i ∈ ids, RedisQueryset.readvalue c (some (bv i)) = Except.ok (vv i)) →
      (RedisQueryset.destroy_many c h ids).1
        = Except.ok (ids.map (fun i => (Status.updated, vv i)))
      ∧ ∀ i ∈ ids, hget (RedisQueryset.destroy_many c h ids).2 i = Option.none)
    ∧ (∀ c h sid, hget h sid = Option.none →
      RedisQueryset.destroy_many c h [sid]
        = (Except.ok [(Status.failed, PyVal.none)], h)) := by
  refine ⟨?_, ?_, ?_, ?_, ?_⟩
  · intro m iid d hd
    simp [DictQueryset.destroy_one, hd]
  · intro m iid hd
    simp [DictQueryset.destroy_one, hd]
  · intro ids m dv hnd hall
    refine ⟨dict_destroy_many_all_present ids m dv hnd hall, ?_⟩
    intro i hi
    exact dictGet_foldl_del_of_mem ids m i hi
  · intro c ids h bv vv hnd hall hrv
    refine ⟨redis_destroy_many_all_present c ids h bv vv hnd hall hrv, ?_⟩
    intro i hi
    rw [redis_destroy_many_snd]
    exact hget_hdelMany_of_mem ids h i hi
  · intro c h sid habs
    have hd := hdel_absent h sid habs
    simp [RedisQueryset.destroy_many, RedisQueryset.mapReadvalue, readvalue_none,
      hdelMany, hd, habs, RedisQueryset.message_factory]

/-- Witness for C7: destroying one stored identifier. -/
theorem C7_destroy_many_characterization_witness :
    DictQueryset.destroy_many [("foo", Datum.mk "foo" "x")] ["foo"]
      = (Except.ok [(Status.updated, Datum.mk "foo" "x")],
         ["foo"].foldl dictDel [("foo", Datum.mk "foo" "x")]) :=
  (C7_destroy_many_characterization.2.2.1 ["foo"] [("foo", Datum.mk "foo" "x")]
    (fun _ => Datum.mk "foo" "x") (by decide) (by decide)).1

/-- Claim C8 counterexample: for the remote-cache backend on an *absent*
identifier, `read_one` returns `(FAILED, id)` while `read_many([id])`
returns `[(FAILED, None)]` — the unwrapped plural result differs from the
singular result. -/
theorem C8_counterexample :
    RedisQueryset.read_one false [] "x" = Except.ok (Status.failed, PyVal.str "x")
    ∧ RedisQueryset.read_many false [] ["x"]
        = Except.ok [(Status.failed, PyVal.none)]
    ∧ PyVal.str "x" ≠ PyVal.none := by
  refine ⟨rfl, rfl, by decide⟩

/-- Claim C8 (amended): for the in-memory backend every singular operation
agrees with its plural counterpart on the one-element list (same sole
result pair, same final store, same raised signal).  For the remote-cache
backend this holds for `create_one`/`update_one` always and for
`read_one`/`destroy_one` when the identifier is present (with a truthy
stored value); on an absent identifier the forms diverge: `read_one`
yields `(FAILED, id)` vs `read_many`'s `(FAILED, None)` pair, and
`destroy_one` yields the bare `NOT_FOUND` vs `destroy_many`'s
`(FAILED, None)` pair.  The document-store backend's singular
`update_one`/`destroy_one` return the plural result unchanged, without
unwrapping. -/
theorem C8_singular_plural :
    (∀ m s, DictQueryset.create_many m [s]
        = ([(DictQueryset.create_one m s).1], (DictQueryset.create_one m s).2))
    ∧ (∀ m i, DictQueryset.read_many m [i]
        = (DictQueryset.read_one m i).map (fun r => [r]))
    ∧ (∀ m s, DictQueryset.update_many m [s]
        = ([(DictQueryset.update_one m s).1], (DictQueryset.update_one m s).2))
    ∧ (∀ m i r m', DictQueryset.destroy_one m i = Except.ok (r, m') →
        DictQueryset.destroy_many m [i] = (Except.ok [r], m'))
    ∧ (∀ m i e, DictQueryset.destroy_one m i = Except.error e →
        DictQueryset.destroy_many m [i] = (Except.error e, m))
    ∧ (∀ c h s, RedisQueryset.create_many c h [s]
        = ([(RedisQueryset.create_one c h s).1], (RedisQueryset.create_one c h s).2))
    ∧ (∀ c h s, RedisQueryset.update_many c h [s]
        = ([(RedisQueryset.update_one c h s).1], (RedisQueryset.update_one c h s).2))
    ∧ (∀ c h i b v, hget h i = some b → Bytes.truthy b = true →
        RedisQueryset.readvalue c (some b) = Except.ok v →
        RedisQueryset.read_one c h i = Except.ok (Status.ok, v)
        ∧ RedisQueryset.read_many c h [i] = Except.ok [(Status.ok, v)])
    ∧ (∀ c h i, hget h i = Option.none →
        RedisQueryset.read_one c h i = Except.ok (Status.failed, PyVal.str i)
        ∧ RedisQueryset.read_many c h [i] = Except.ok [(Status.failed, PyVal.none)])
    ∧ (∀ c h i b v, hget h i = some b →
        RedisQueryset.readvalue c (some b) = Except.ok v →
        RedisQueryset.destroy_one c h i
          = (Except.ok (RedisQueryset.DestroyOneRes.pair Status.updated v), (hdel h i).2)
        ∧ RedisQueryset.destroy_many c h [i]
          = (Except.ok [(Status.updated, v)], (hdel h i).2))
    ∧ (∀ c h i, hget h i = Option.none →
        RedisQueryset.destroy_one c h i
          = (Except.ok (RedisQueryset.DestroyOneRes.bare Status.notFound), h)
        ∧ RedisQueryset.destroy_many c h [i]
          = (Except.ok [(Status.failed, PyVal.none)], h))
    ∧ (∀ coll s, MongoQueryset.update_one coll s = MongoQueryset.update_many coll [s])
    ∧ (∀ coll i, MongoQueryset.destroy_one coll i = MongoQueryset.destroy_many coll [i]) := by
  refine ⟨fun m s => rfl, ?_, fun m s => rfl, ?_, ?_, fun c h s => rfl,
    fun c h s => rfl, ?_, ?_, ?_, ?_, fun coll s => rfl, fun coll i => rfl⟩
  · intro m i
    cases hr : DictQueryset.read_one m i with
    | error e => simp [DictQueryset.read_many, hr, Except.map]
    | ok r => simp [DictQueryset.read_many, hr, Except.map]
  · intro m i r m' hd
    simp [DictQueryset.destroy_many, hd]
  · intro m i e hd
    simp [DictQueryset.destroy_many, hd]
  · intro c h i b v hg htr hrv
    constructor
    · simp [RedisQueryset.read_one, hg, truthyOpt, htr, hrv]
    · simp [RedisQueryset.read_many, RedisQueryset.mapReadvalue, hg, hrv,
        truthyOpt, htr, RedisQueryset.message_factory]
  · intro c h i hg
    constructor
    · simp [RedisQueryset.read_one, hg, truthyOpt]
    · simp [RedisQueryset.read_many, RedisQueryset.mapReadvalue, hg,
        readvalue_none, truthyOpt, RedisQueryset.message_factory]
  · intro c h i b v hg hrv
    have hd := hdel_present h i (by simp [hg])
    constructor
    · simp [RedisQueryset.destroy_one, hd, hg, hrv]
    · simp [RedisQueryset.destroy_many, RedisQueryset.mapReadvalue, hg, hrv,
        hdelMany, hd, RedisQueryset.message_factory]
  · intro c h i hg
    have hd := hdel_absent h i hg
    constructor
    · simp [RedisQueryset.destroy_one, hd]
    · simp [RedisQueryset.destroy_many, RedisQueryset.mapReadvalue, hg,
        readvalue_none, hdelMany, hd, RedisQueryset.message_factory]

/-- Witness for C8: singular/plural agreement at a concrete present key. -/
theorem C8_singular_plural_witness :
    RedisQueryset.read_one false [("a", Bytes.jsonOf (Datum.mk "a" "x"))] "a"
      = Except.ok (Status.ok, PyVal.datum (Datum.mk "a" "x"))
    ∧ RedisQueryset.read_many false [("a", Bytes.jsonOf (Datum.mk "a" "x"))] ["a"]
      = Except.ok [(Status.ok, PyVal.datum (Datum.mk "a" "x"))] :=
  C8_singular_plural.2.2.2.2.2.2.2.1 false [("a", Bytes.jsonOf (Datum.mk "a" "x"))]
    "a" (Bytes.jsonOf (Datum.mk "a" "x")) (PyVal.datum (Datum.mk "a" "x"))
    rfl rfl rfl
